import Mathlib

/-!
Verification of the `sw5e` crate's `Proficency` enum
(src/crates/sw5e/src/proficency.rs) against its natural-language
specification. The enum and its four step operations are embedded
directly; the spec's rank table is embedded separately (`specRank`,
`atRank`) so that code behaviour can be compared against it.
-/

namespace Sw5e

/-- The `Proficency` enum of src/crates/sw5e/src/proficency.rs, with its
seven variants in declaration order. -/
inductive Proficency : Type where
  | Untrained
  | Trained
  | Proficent
  | Expertise
  | Mastery
  | HighMastery
  | GrandMastery
deriving DecidableEq, Fintype

/-- The discriminant Rust assigns to each variant: its 0-based position in
declaration order. The derived `PartialEq`/`Eq`/`PartialOrd`/`Ord` compare
fieldless variants by this discriminant. -/
def Proficency.discriminant : Proficency → Nat
  | .Untrained => 0
  | .Trained => 1
  | .Proficent => 2
  | .Expertise => 3
  | .Mastery => 4
  | .HighMastery => 5
  | .GrandMastery => 6

/-- The derived `PartialEq`/`Eq` on the fieldless enum: equality of
discriminants. -/
def Proficency.eq (a b : Proficency) : Bool :=
  a.discriminant == b.discriminant

/-- The derived `PartialOrd`/`Ord` on the fieldless enum: comparison of
discriminants in declaration order. -/
def Proficency.cmp (a b : Proficency) : Ordering :=
  compare a.discriminant b.discriminant

/-- The derived `Default`: the variant carrying the `#[default]`
attribute, `Untrained`. -/
def Proficency.default : Proficency := Proficency.Untrained

/-- `Proficency::increase`: the next proficency level, or `None` at
`GrandMastery`. -/
def Proficency.increase : Proficency → Option Proficency
  | .Untrained => some .Trained
  | .Trained => some .Proficent
  | .Proficent => some .Expertise
  | .Expertise => some .Mastery
  | .Mastery => some .HighMastery
  | .HighMastery => some .GrandMastery
  | .GrandMastery => none

/-- `Proficency::increase_wrapping`: the next proficency level, wrapping
around to `Untrained` at `GrandMastery`. -/
def Proficency.increase_wrapping : Proficency → Proficency
  | .Untrained => .Trained
  | .Trained => .Proficent
  | .Proficent => .Expertise
  | .Expertise => .Mastery
  | .Mastery => .HighMastery
  | .HighMastery => .GrandMastery
  | .GrandMastery => .Untrained

/-- `Proficency::decrease`: the previous proficency level, or `None` at
`Untrained`. -/
def Proficency.decrease : Proficency → Option Proficency
  | .Untrained => none
  | .Trained => some .Untrained
  | .Proficent => some .Trained
  | .Expertise => some .Proficent
  | .Mastery => some .Expertise
  | .HighMastery => some .Mastery
  | .GrandMastery => some .HighMastery

/-- `Proficency::decrease_wrapping`: the previous proficency level,
wrapping around to `GrandMastery` at `Untrained`. -/
def Proficency.decrease_wrapping : Proficency → Proficency
  | .Untrained => .GrandMastery
  | .Trained => .Untrained
  | .Proficent => .Trained
  | .Expertise => .Proficent
  | .Mastery => .Expertise
  | .HighMastery => .Mastery
  | .GrandMastery => .HighMastery

/-- Modelled from the spec: the rank table of §3 of the specification,
assigning each named tier its 0-based rank in the listed order. Kept
separate from `Proficency.discriminant` so that the code's ordering and
stepping can be compared against the spec's table. -/
def specRank : Proficency → Nat
  | .Untrained => 0
  | .Trained => 1
  | .Proficent => 2
  | .Expertise => 3
  | .Mastery => 4
  | .HighMastery => 5
  | .GrandMastery => 6

/-- Modelled from the spec: the inverse reading of the §3 rank table,
"the value at rank n", absent when no row of the table has rank n. -/
def atRank : Nat → Option Proficency
  | 0 => some .Untrained
  | 1 => some .Trained
  | 2 => some .Proficent
  | 3 => some .Expertise
  | 4 => some .Mastery
  | 5 => some .HighMastery
  | 6 => some .GrandMastery
  | _ => none

/-- Repeated application of `Proficency.increase`, taking the present
value at each step and propagating absence. -/
def iterIncrease : Nat → Proficency → Option Proficency
  | 0, v => some v
  | n + 1, v => (iterIncrease n v).bind Proficency.increase

/-- C1 (counterexample): the Proficency type does not have exactly six
values — its cardinality is not 6 (it is 7, with `Trained` being a
seventh variant between `Untrained` and `Proficent` in the enum). -/
theorem c1_six_values_counterexample : ¬ (Fintype.card Proficency = 6) := by
  decide

/-- C1 (amended): the Proficency enum is a closed set of exactly seven
values: its cardinality is 7 and every value of the type is one of the
seven named variants. -/
theorem c1_closed_seven_values :
    Fintype.card Proficency = 7 ∧
      ∀ v : Proficency,
        v = Proficency.Untrained ∨ v = Proficency.Trained ∨
        v = Proficency.Proficent ∨ v = Proficency.Expertise ∨
        v = Proficency.Mastery ∨ v = Proficency.HighMastery ∨
        v = Proficency.GrandMastery := by
  constructor
  · decide
  · intro v
    cases v <;> simp

/-- C2 (counterexample): applying `increase_wrapping` six times starting
from `Untrained` yields `GrandMastery`, not `Untrained`, so the six-fold
cycle closure fails on the seven-variant cycle. -/
theorem c2_six_cycle_counterexample :
    ¬ (Nat.iterate Proficency.increase_wrapping 6 Proficency.Untrained =
        Proficency.Untrained) := by
  decide

/-- C2 (amended): applying `increase_wrapping` seven times starting from
any value returns that value, and applying `decrease_wrapping` seven
times likewise returns to the start. -/
theorem c2_seven_cycle_closure :
    ∀ v : Proficency,
      Nat.iterate Proficency.increase_wrapping 7 v = v ∧
        Nat.iterate Proficency.decrease_wrapping 7 v = v := by
  decide

/-- C3: `increase` is absent exactly at `GrandMastery` and `decrease` is
absent exactly at `Untrained`; on every other input each operation
returns a present value. -/
theorem c3_boundary_absence :
    ∀ v : Proficency,
      (Proficency.increase v = none ↔ v = Proficency.GrandMastery) ∧
        (Proficency.decrease v = none ↔ v = Proficency.Untrained) := by
  decide

/-- C4: the wrapping operations are total and step by rank: away from
`GrandMastery`, `increase_wrapping v` is the value of the spec's rank
table at `specRank v + 1`, and `increase_wrapping GrandMastery =
Untrained`; away from `Untrained`, `decrease_wrapping v` is the value at
`specRank v - 1`, and `decrease_wrapping Untrained = GrandMastery`. -/
theorem c4_wrapping_steps_by_rank :
    ∀ v : Proficency,
      (v ≠ Proficency.GrandMastery →
        atRank (specRank v + 1) = some (Proficency.increase_wrapping v)) ∧
      Proficency.increase_wrapping Proficency.GrandMastery =
        Proficency.Untrained ∧
      (v ≠ Proficency.Untrained →
        atRank (specRank v - 1) = some (Proficency.decrease_wrapping v)) ∧
      Proficency.decrease_wrapping Proficency.Untrained =
        Proficency.GrandMastery := by
  decide

/-- C5: the derived equality and ordering on Proficency agree with the
spec's rank chain Untrained < Trained < Proficent < Expertise < Mastery <
HighMastery < GrandMastery: for every pair of values, the derived
comparison equals the comparison of their spec ranks, and the derived
equality holds exactly when the spec ranks coincide. -/
theorem c5_order_agrees_with_rank :
    ∀ a b : Proficency,
      Proficency.cmp a b = compare (specRank a) (specRank b) ∧
        (Proficency.eq a b = true ↔ specRank a = specRank b) := by
  decide

/-- C6: the non-wrapping steps are mutual inverses on their domains:
whenever `increase v` is present with value `w`, `decrease w` is present
with value `v`, and symmetrically for `decrease`/`increase`. -/
theorem c6_partial_steps_inverse :
    ∀ v w : Proficency,
      (Proficency.increase v = some w → Proficency.decrease w = some v) ∧
        (Proficency.decrease v = some w → Proficency.increase w = some v) := by
  decide

/-- C7: the wrapping steps are mutual inverses everywhere: for every
value `v`, `decrease_wrapping (increase_wrapping v) = v` and
`increase_wrapping (decrease_wrapping v) = v`. -/
theorem c7_wrapping_inverse :
    ∀ v : Proficency,
      Proficency.decrease_wrapping (Proficency.increase_wrapping v) = v ∧
        Proficency.increase_wrapping (Proficency.decrease_wrapping v) = v := by
  decide

/-- C8: a default-constructed Proficency value equals `Untrained`. -/
theorem c8_default_is_untrained :
    Proficency.default = Proficency.Untrained := rfl

/-- C9: starting from `Untrained` and repeatedly applying `increase`,
taking the present value at each step: the fifth application yields
`HighMastery`, the sixth yields `GrandMastery`, and the seventh returns
the absent result. -/
theorem c9_increase_chain :
    iterIncrease 5 Proficency.Untrained = some Proficency.HighMastery ∧
      iterIncrease 6 Proficency.Untrained = some Proficency.GrandMastery ∧
        iterIncrease 7 Proficency.Untrained = none := by
  decide

/-- C10: the wrapping operations agree with the non-wrapping operations
wherever the latter are present: if `increase v = some w` then
`increase_wrapping v = w`, and if `decrease v = some w` then
`decrease_wrapping v = w`. -/
theorem c10_wrapping_refines_partial :
    ∀ v w : Proficency,
      (Proficency.increase v = some w → Proficency.increase_wrapping v = w) ∧
        (Proficency.decrease v = some w → Proficency.decrease_wrapping v = w) := by
  decide

end Sw5e
